import Mathlib

set_option autoImplicit false

/-!
Shallow embedding of the washer control state machine of this repository
(`src/src/washer.c`, `src/unnamed/part_000` = temperature-aware `washer.c`
variant, headers in `src/unnamed/part_001`, `part_002`, `part_003`).

The C code stores `state` and `direction` as C enums inside `WasherControl`;
a corrupted raw value is explicitly handled by the `default:` arm of the
`switch` in `Washer_Update`, so states are embedded as `Int` constants
(`IDLE = 0`, ..., `ERROR = 5`) rather than as a closed inductive type.
Hardware side effects (`HAL_GPIO_WritePin`, `Display_*`) are embedded as
explicit command lists returned by each call; `HAL_GetTick` / the
`static uint32_t lastTime` of `Washer_Update` become explicit arguments and
results.  Temperature (`float`) is embedded as `ℚ`: the policy only compares
against the exact constants 25.0 and 35.0.  Tick arithmetic
(`currentTime - lastTime` on `uint32_t`) is embedded as subtraction
modulo 2^32 on `Nat`.
-/

/-- Enum value `IDLE` of `WasherState` (first enumerator, value 0). -/
def IDLE : Int := 0

/-- Enum value `FILL_WATER` of `WasherState`. -/
def FILL_WATER : Int := 1

/-- Enum value `WASH` of `WasherState`. -/
def WASH : Int := 2

/-- Enum value `RINSE` of `WasherState`. -/
def RINSE : Int := 3

/-- Enum value `SPIN` of `WasherState`. -/
def SPIN : Int := 4

/-- Enum value `ERROR` of `WasherState`. -/
def ERROR : Int := 5

/-- Motor direction enum value `FORWARD`. -/
def FORWARD : Int := 0

/-- Motor direction enum value `REVERSE`. -/
def REVERSE : Int := 1

/-- The `WasherControl` structure of `washer.h` as used by `src/src/washer.c`
and initialized in `main.c` as `{IDLE, 0, 0, 0, 0}`. -/
structure WasherControl where
  state : Int
  programIndex : Int
  stepIndex : Int
  timer : Int
  direction : Int
deriving DecidableEq, Repr

/-- The four logical button events handled by `Washer_HandleButtonPress`.
The C code receives an `int` and compares it with the macros `BUTTON_START`,
`BUTTON_STOP`, `BUTTON_UP`, `BUTTON_DOWN` (distinct values, not defined in
the repository's headers); the four distinct constructors embed them. -/
inductive Button where
  | START
  | STOP
  | UP
  | DOWN
deriving DecidableEq, Repr

/-- The four output pins driven by the washer code: `MOTOR_FORWARD_PIN`,
`MOTOR_REVERSE_PIN` on the motor port and `WATER_HOT_PIN`, `WATER_COLD_PIN`
(`HOT_WATER_PIN` / `COLD_WATER_PIN` in the temperature variant). -/
inductive Pin where
  | motorForward
  | motorReverse
  | waterHot
  | waterCold
deriving DecidableEq, Repr

/-- One `HAL_GPIO_WritePin(port, pinMask, level)` call: the set of pins in
the mask and the commanded level (`true` = `GPIO_PIN_SET`). -/
structure GpioWrite where
  pins : List Pin
  level : Bool
deriving DecidableEq, Repr

/-- One display/status-sink call made by the washer code. -/
inductive DisplayCall where
  | updateWasherState (state : Int) (programIndex : Int)
  | showSelectedProgram (programIndex : Int)
  | updateTime
deriving DecidableEq, Repr

/-- The level a pin is left commanded at after a sequence of GPIO writes:
the level of the last write whose mask contains the pin, or `none` if no
write in the sequence touched the pin (the pin keeps whatever level it
had before the sequence). -/
def finalLevel (writes : List GpioWrite) (p : Pin) : Option Bool :=
  writes.foldl (fun acc w => if p ∈ w.pins then some w.level else acc) none

/-- Value 2^32: modulus of the C `uint32_t` tick arithmetic. -/
def U32 : Nat := 4294967296

/-- The C expression `currentTime - lastTime` on `uint32_t` operands:
subtraction modulo 2^32 (both arguments are uint32 values, i.e. < 2^32). -/
def u32sub (a b : Nat) : Nat := (a + (U32 - b % U32)) % U32

/-- Embedding of `Washer_Init` from `src/src/washer.c`: resets all fields
and issues one `Display_UpdateWasherState(IDLE, 0)` call. -/
def Washer_Init : WasherControl × List DisplayCall :=
  ({ state := IDLE, programIndex := 0, stepIndex := 0, timer := 0,
     direction := FORWARD },
   [DisplayCall.updateWasherState IDLE 0])

/-- Result of one `Washer_Update` call of `src/src/washer.c`: the updated
structure, the updated `static uint32_t lastTime`, the GPIO writes issued
during the call (in order) and the display calls issued during the call. -/
structure UpdateResult where
  washer : WasherControl
  lastTime : Nat
  gpio : List GpioWrite
  display : List DisplayCall
deriving DecidableEq, Repr

/-- Embedding of `Washer_Update` from `src/src/washer.c` (the variant with
the 10000 ms fill timing gate).  `lastTime` is the function's static local,
`currentTime` the value returned by `HAL_GetTick()` for this call; the
`switch (washer->state)` becomes the chain of state tests. -/
def Washer_Update (washer : WasherControl) (lastTime currentTime : Nat) :
    UpdateResult :=
  if washer.state = IDLE then
    { washer := washer, lastTime := lastTime,
      gpio := [{ pins := [Pin.motorForward, Pin.motorReverse], level := false },
               { pins := [Pin.waterHot, Pin.waterCold], level := false }],
      display := [] }
  else if washer.state = FILL_WATER then
    if 10000 ≤ u32sub currentTime lastTime then
      { washer := { washer with state := WASH }, lastTime := currentTime,
        gpio := [{ pins := [Pin.waterHot], level := true },
                 { pins := [Pin.waterCold], level := true },
                 { pins := [Pin.waterHot, Pin.waterCold], level := false }],
        display := [DisplayCall.updateWasherState FILL_WATER washer.programIndex] }
    else
      { washer := washer, lastTime := lastTime,
        gpio := [{ pins := [Pin.waterHot], level := true },
                 { pins := [Pin.waterCold], level := true }],
        display := [DisplayCall.updateWasherState FILL_WATER washer.programIndex] }
  else if washer.state = WASH then
    { washer := { washer with state := RINSE }, lastTime := lastTime,
      gpio := [],
      display := [DisplayCall.updateWasherState WASH washer.programIndex] }
  else if washer.state = RINSE then
    { washer := { washer with state := SPIN }, lastTime := lastTime,
      gpio := [],
      display := [DisplayCall.updateWasherState RINSE washer.programIndex] }
  else if washer.state = SPIN then
    { washer := { washer with state := IDLE }, lastTime := lastTime,
      gpio := [{ pins := [Pin.motorForward], level := true },
               { pins := [Pin.motorReverse], level := false }],
      display := [DisplayCall.updateWasherState SPIN washer.programIndex] }
  else if washer.state = ERROR then
    { washer := washer, lastTime := lastTime,
      gpio := [{ pins := [Pin.motorForward, Pin.motorReverse], level := false },
               { pins := [Pin.waterHot, Pin.waterCold], level := false }],
      display := [DisplayCall.updateWasherState ERROR washer.programIndex] }
  else
    { washer := { washer with state := ERROR }, lastTime := lastTime,
      gpio := [], display := [] }

/-- Embedding of `Washer_HandleButtonPress` from `src/src/washer.c`:
returns the updated structure and the display calls issued. -/
def Washer_HandleButtonPress (washer : WasherControl) (button : Button) :
    WasherControl × List DisplayCall :=
  if button = Button.START ∧ washer.state = IDLE then
    ({ washer with state := FILL_WATER },
     [DisplayCall.updateWasherState FILL_WATER washer.programIndex])
  else if button = Button.STOP then
    ({ washer with state := IDLE },
     [DisplayCall.updateWasherState IDLE washer.programIndex])
  else if button = Button.UP ∧ washer.state = IDLE then
    if washer.programIndex < 29 then
      ({ washer with programIndex := washer.programIndex + 1 },
       [DisplayCall.showSelectedProgram (washer.programIndex + 1)])
    else (washer, [])
  else if button = Button.DOWN ∧ washer.state = IDLE then
    if 0 < washer.programIndex then
      ({ washer with programIndex := washer.programIndex - 1 },
       [DisplayCall.showSelectedProgram (washer.programIndex - 1)])
    else (washer, [])
  else (washer, [])

/-- Result of one `Washer_Update` call of `src/unnamed/part_000` (the
temperature-aware variant, which has no static timer). -/
structure UpdateTResult where
  washer : WasherControl
  gpio : List GpioWrite
  display : List DisplayCall
deriving DecidableEq, Repr

/-- Embedding of `Washer_Update` from `src/unnamed/part_000` (the variant
that reads a temperature sample in `FILL_WATER` and selects the valves by
threshold comparison).  `temperature` is the value returned by
`Read_Temperature()` for this call; every arm ends with the trailing
`Display_UpdateTime()` call. -/
def Washer_UpdateT (washer : WasherControl) (temperature : ℚ) :
    UpdateTResult :=
  if washer.state = IDLE then
    { washer := washer, gpio := [], display := [DisplayCall.updateTime] }
  else if washer.state = FILL_WATER then
    { washer := { washer with state := WASH },
      gpio :=
        if temperature < 25 then
          [{ pins := [Pin.waterHot], level := true },
           { pins := [Pin.waterCold], level := false }]
        else if 35 < temperature then
          [{ pins := [Pin.waterHot], level := false },
           { pins := [Pin.waterCold], level := true }]
        else
          [{ pins := [Pin.waterHot], level := true },
           { pins := [Pin.waterCold], level := true }],
      display := [DisplayCall.updateWasherState FILL_WATER washer.programIndex,
                  DisplayCall.updateTime] }
  else if washer.state = WASH then
    { washer := { washer with state := RINSE }, gpio := [],
      display := [DisplayCall.updateWasherState WASH washer.programIndex,
                  DisplayCall.updateTime] }
  else if washer.state = RINSE then
    { washer := { washer with state := SPIN }, gpio := [],
      display := [DisplayCall.updateWasherState RINSE washer.programIndex,
                  DisplayCall.updateTime] }
  else if washer.state = SPIN then
    { washer := { washer with state := IDLE }, gpio := [],
      display := [DisplayCall.updateWasherState SPIN washer.programIndex,
                  DisplayCall.updateTime] }
  else if washer.state = ERROR then
    { washer := washer, gpio := [],
      display := [DisplayCall.updateWasherState ERROR washer.programIndex,
                  DisplayCall.updateTime] }
  else
    { washer := washer, gpio := [],
      display := [DisplayCall.updateWasherState ERROR washer.programIndex,
                  DisplayCall.updateTime] }

/-- Embedding of `Washer_HandleButtonPress` from `src/unnamed/part_000`:
identical branch structure, plus the trailing `Display_UpdateTime()` call
issued on every path. -/
def Washer_HandleButtonPressT (washer : WasherControl) (button : Button) :
    WasherControl × List DisplayCall :=
  if button = Button.START ∧ washer.state = IDLE then
    ({ washer with state := FILL_WATER },
     [DisplayCall.updateWasherState FILL_WATER washer.programIndex,
      DisplayCall.updateTime])
  else if button = Button.STOP then
    ({ washer with state := IDLE },
     [DisplayCall.updateWasherState IDLE washer.programIndex,
      DisplayCall.updateTime])
  else if button = Button.UP ∧ washer.state = IDLE then
    if washer.programIndex < 29 then
      ({ washer with programIndex := washer.programIndex + 1 },
       [DisplayCall.showSelectedProgram (washer.programIndex + 1),
        DisplayCall.updateTime])
    else (washer, [DisplayCall.updateTime])
  else if button = Button.DOWN ∧ washer.state = IDLE then
    if 0 < washer.programIndex then
      ({ washer with programIndex := washer.programIndex - 1 },
       [DisplayCall.showSelectedProgram (washer.programIndex - 1),
        DisplayCall.updateTime])
    else (washer, [DisplayCall.updateTime])
  else (washer, [DisplayCall.updateTime])

/-- One event fed to the controller: a button press (handled by
`Washer_HandleButtonPress`) or a periodic `Washer_Update` call observing a
tick value. -/
inductive Event where
  | button (b : Button)
  | update (currentTime : Nat)

/-- One event step over the pair (control structure, static `lastTime`). -/
def stepEvent (s : WasherControl × Nat) (e : Event) : WasherControl × Nat :=
  match e with
  | Event.button b => ((Washer_HandleButtonPress s.1 b).1, s.2)
  | Event.update c =>
      let r := Washer_Update s.1 s.2 c
      (r.washer, r.lastTime)

/-- Run of a sequence of events from a starting state. -/
def runEvents (s : WasherControl × Nat) (evs : List Event) :
    WasherControl × Nat :=
  evs.foldl stepEvent s

/-- A raw `state` value that matches one of the six `WasherState`
enumerators, i.e. one of the labeled `case` arms of the `switch`. -/
def recognizedState (s : Int) : Prop :=
  s = IDLE ∨ s = FILL_WATER ∨ s = WASH ∨ s = RINSE ∨ s = SPIN ∨ s = ERROR

instance (s : Int) : Decidable (recognizedState s) := by
  unfold recognizedState
  infer_instance

/-! ### Helper lemmas: per-state characterization of one `Washer_Update` call -/

theorem u32sub_add_self (p d : Nat) (h : p + d < U32) : u32sub (p + d) p = d := by
  unfold u32sub U32 at *
  have hp : p % 4294967296 = p := Nat.mod_eq_of_lt (by omega)
  rw [hp]
  have h2 : p + d + (4294967296 - p) = 4294967296 + d := by omega
  rw [h2]
  omega

theorem update_eq_of_idle (w : WasherControl) (lt c : Nat) (h : w.state = IDLE) :
    Washer_Update w lt c =
      ⟨w, lt, [⟨[Pin.motorForward, Pin.motorReverse], false⟩,
               ⟨[Pin.waterHot, Pin.waterCold], false⟩], []⟩ := by
  unfold Washer_Update
  rw [h]
  norm_num [IDLE]

theorem update_eq_of_fill (w : WasherControl) (lt c : Nat)
    (h : w.state = FILL_WATER) :
    Washer_Update w lt c =
      if 10000 ≤ u32sub c lt then
        ⟨{ w with state := WASH }, c,
         [⟨[Pin.waterHot], true⟩, ⟨[Pin.waterCold], true⟩,
          ⟨[Pin.waterHot, Pin.waterCold], false⟩],
         [DisplayCall.updateWasherState FILL_WATER w.programIndex]⟩
      else
        ⟨w, lt, [⟨[Pin.waterHot], true⟩, ⟨[Pin.waterCold], true⟩],
         [DisplayCall.updateWasherState FILL_WATER w.programIndex]⟩ := by
  unfold Washer_Update
  rw [h]
  norm_num [IDLE, FILL_WATER]

theorem update_eq_of_wash (w : WasherControl) (lt c : Nat) (h : w.state = WASH) :
    Washer_Update w lt c =
      ⟨{ w with state := RINSE }, lt, [],
       [DisplayCall.updateWasherState WASH w.programIndex]⟩ := by
  unfold Washer_Update
  rw [h]
  norm_num [IDLE, FILL_WATER, WASH]

theorem update_eq_of_rinse (w : WasherControl) (lt c : Nat) (h : w.state = RINSE) :
    Washer_Update w lt c =
      ⟨{ w with state := SPIN }, lt, [],
       [DisplayCall.updateWasherState RINSE w.programIndex]⟩ := by
  unfold Washer_Update
  rw [h]
  norm_num [IDLE, FILL_WATER, WASH, RINSE]

theorem update_eq_of_spin (w : WasherControl) (lt c : Nat) (h : w.state = SPIN) :
    Washer_Update w lt c =
      ⟨{ w with state := IDLE }, lt,
       [⟨[Pin.motorForward], true⟩, ⟨[Pin.motorReverse], false⟩],
       [DisplayCall.updateWasherState SPIN w.programIndex]⟩ := by
  unfold Washer_Update
  rw [h]
  norm_num [IDLE, FILL_WATER, WASH, RINSE, SPIN]

theorem update_eq_of_error (w : WasherControl) (lt c : Nat) (h : w.state = ERROR) :
    Washer_Update w lt c =
      ⟨w, lt, [⟨[Pin.motorForward, Pin.motorReverse], false⟩,
               ⟨[Pin.waterHot, Pin.waterCold], false⟩],
       [DisplayCall.updateWasherState ERROR w.programIndex]⟩ := by
  unfold Washer_Update
  rw [h]
  norm_num [IDLE, FILL_WATER, WASH, RINSE, SPIN, ERROR]

theorem update_eq_of_unknown (w : WasherControl) (lt c : Nat)
    (h : ¬ recognizedState w.state) :
    Washer_Update w lt c = ⟨{ w with state := ERROR }, lt, [], []⟩ := by
  unfold recognizedState at h
  push_neg at h
  obtain ⟨h1, h2, h3, h4, h5, h6⟩ := h
  unfold Washer_Update
  rw [if_neg h1, if_neg h2, if_neg h3, if_neg h4, if_neg h5, if_neg h6]

theorem updateT_eq_of_fill (w : WasherControl) (t : ℚ)
    (h : w.state = FILL_WATER) :
    Washer_UpdateT w t =
      ⟨{ w with state := WASH },
       if t < 25 then [⟨[Pin.waterHot], true⟩, ⟨[Pin.waterCold], false⟩]
       else if 35 < t then [⟨[Pin.waterHot], false⟩, ⟨[Pin.waterCold], true⟩]
       else [⟨[Pin.waterHot], true⟩, ⟨[Pin.waterCold], true⟩],
       [DisplayCall.updateWasherState FILL_WATER w.programIndex,
        DisplayCall.updateTime]⟩ := by
  unfold Washer_UpdateT
  rw [h]
  norm_num [IDLE, FILL_WATER]

/-! ### Helper lemmas: frame facts about `programIndex` and `direction` -/

theorem update_washer_programIndex (w : WasherControl) (lt c : Nat) :
    (Washer_Update w lt c).washer.programIndex = w.programIndex := by
  unfold Washer_Update
  split_ifs <;> rfl

theorem update_washer_direction (w : WasherControl) (lt c : Nat) :
    (Washer_Update w lt c).washer.direction = w.direction := by
  unfold Washer_Update
  split_ifs <;> rfl

theorem hb_programIndex (w : WasherControl) (b : Button) :
    (Washer_HandleButtonPress w b).1.programIndex =
      if b = Button.UP ∧ w.state = IDLE ∧ w.programIndex < 29 then
        w.programIndex + 1
      else if b = Button.DOWN ∧ w.state = IDLE ∧ 0 < w.programIndex then
        w.programIndex - 1
      else w.programIndex := by
  cases b <;> (unfold Washer_HandleButtonPress; split_ifs <;> simp_all)

theorem hb_direction (w : WasherControl) (b : Button) :
    (Washer_HandleButtonPress w b).1.direction = w.direction := by
  cases b <;> (unfold Washer_HandleButtonPress; split_ifs <;> rfl)

theorem stepEvent_programIndex (s : WasherControl × Nat) (e : Event)
    (h0 : 0 ≤ s.1.programIndex) (h29 : s.1.programIndex ≤ 29) :
    0 ≤ (stepEvent s e).1.programIndex ∧ (stepEvent s e).1.programIndex ≤ 29 := by
  cases e with
  | button b =>
      simp only [stepEvent, hb_programIndex]
      split_ifs <;> constructor <;> omega
  | update c =>
      simp only [stepEvent, update_washer_programIndex]
      exact ⟨h0, h29⟩

theorem runEvents_programIndex (evs : List Event) :
    ∀ s : WasherControl × Nat,
      0 ≤ s.1.programIndex → s.1.programIndex ≤ 29 →
      0 ≤ (runEvents s evs).1.programIndex
      ∧ (runEvents s evs).1.programIndex ≤ 29 := by
  induction evs with
  | nil => intro s h0 h29; exact ⟨h0, h29⟩
  | cons e tl ih =>
      intro s h0 h29
      rw [runEvents, List.foldl_cons]
      have hstep := stepEvent_programIndex s e h0 h29
      exact ih (stepEvent s e) hstep.1 hstep.2

theorem stepEvent_direction (s : WasherControl × Nat) (e : Event) :
    (stepEvent s e).1.direction = s.1.direction := by
  cases e with
  | button b => simp only [stepEvent, hb_direction]
  | update c => simp only [stepEvent, update_washer_direction]

theorem runEvents_direction (evs : List Event) :
    ∀ s : WasherControl × Nat,
      (runEvents s evs).1.direction = s.1.direction := by
  induction evs with
  | nil => intro s; rfl
  | cons e tl ih =>
      intro s
      rw [runEvents, List.foldl_cons]
      rw [show List.foldl stepEvent (stepEvent s e) tl
            = runEvents (stepEvent s e) tl from rfl]
      rw [ih (stepEvent s e), stepEvent_direction]

/-! ### Claim theorems -/

/-- C1: starting from `Idle` with `programIndex = 5`, a Start button event
enters `FILL_WATER`; with the fill phase having started at tick `p` (the
static `lastTime` holding `p`), `Washer_Update` at elapsed 9999 ms leaves
the state `FILL_WATER` and at elapsed 10000 ms transitions it to `WASH`;
in general the fill phase advances exactly when
`currentTime - lastTime >= 10000` (uint32 arithmetic). -/
theorem fillwater_timing_scenario (p : Nat) (hp : p + 10000 < U32) :
    (Washer_HandleButtonPress ⟨IDLE, 5, 0, 0, FORWARD⟩ Button.START).1.state
      = FILL_WATER
    ∧ (Washer_Update (Washer_HandleButtonPress ⟨IDLE, 5, 0, 0, FORWARD⟩
        Button.START).1 p (p + 9999)).washer.state = FILL_WATER
    ∧ (Washer_Update (Washer_HandleButtonPress ⟨IDLE, 5, 0, 0, FORWARD⟩
        Button.START).1 p (p + 10000)).washer.state = WASH
    ∧ (∀ c, (Washer_Update (Washer_HandleButtonPress ⟨IDLE, 5, 0, 0, FORWARD⟩
        Button.START).1 p c).washer.state = WASH ↔ 10000 ≤ u32sub c p) := by
  have hw : (Washer_HandleButtonPress ⟨IDLE, 5, 0, 0, FORWARD⟩ Button.START).1
      = ⟨FILL_WATER, 5, 0, 0, FORWARD⟩ := by decide
  rw [hw]
  have gate : ∀ c, Washer_Update ⟨FILL_WATER, 5, 0, 0, FORWARD⟩ p c
      = if 10000 ≤ u32sub c p then
          ⟨⟨WASH, 5, 0, 0, FORWARD⟩, c,
           [⟨[Pin.waterHot], true⟩, ⟨[Pin.waterCold], true⟩,
            ⟨[Pin.waterHot, Pin.waterCold], false⟩],
           [DisplayCall.updateWasherState FILL_WATER 5]⟩
        else
          ⟨⟨FILL_WATER, 5, 0, 0, FORWARD⟩, p,
           [⟨[Pin.waterHot], true⟩, ⟨[Pin.waterCold], true⟩],
           [DisplayCall.updateWasherState FILL_WATER 5]⟩ := by
    intro c
    exact update_eq_of_fill ⟨FILL_WATER, 5, 0, 0, FORWARD⟩ p c rfl
  have e1 : u32sub (p + 9999) p = 9999 := u32sub_add_self p 9999 (by omega)
  have e2 : u32sub (p + 10000) p = 10000 := u32sub_add_self p 10000 (by omega)
  refine ⟨rfl, ?_, ?_, ?_⟩
  · rw [gate, e1]
    norm_num [FILL_WATER]
  · rw [gate, e2]
    norm_num [WASH]
  · intro c
    rw [gate]
    by_cases hc : 10000 ≤ u32sub c p
    · rw [if_pos hc]
      simp [hc, WASH]
    · rw [if_neg hc]
      simp [hc, FILL_WATER, WASH]

/-- C1 witness: the scenario instantiated at phase start tick 0. -/
theorem fillwater_timing_scenario_check :
    (Washer_Update (Washer_HandleButtonPress ⟨IDLE, 5, 0, 0, FORWARD⟩
        Button.START).1 0 (0 + 9999)).washer.state = FILL_WATER
    ∧ (Washer_Update (Washer_HandleButtonPress ⟨IDLE, 5, 0, 0, FORWARD⟩
        Button.START).1 0 (0 + 10000)).washer.state = WASH :=
  ⟨(fillwater_timing_scenario 0 (by decide)).2.1,
   (fillwater_timing_scenario 0 (by decide)).2.2.1⟩

/-- C2: for every event sequence from `Washer_Init` (with the static
`lastTime` initially 0), `programIndex` stays in `[0, 29]`; `Washer_Update`
never modifies `programIndex`; ProgramUp increments only in `IDLE` with
index below 29, ProgramDown decrements only in `IDLE` with index above 0,
and Start/Stop never modify the index. -/
theorem programIndex_bounds :
    (∀ evs : List Event,
      0 ≤ (runEvents (Washer_Init.1, 0) evs).1.programIndex
      ∧ (runEvents (Washer_Init.1, 0) evs).1.programIndex ≤ 29)
    ∧ (∀ (w : WasherControl) (lt c : Nat),
        (Washer_Update w lt c).washer.programIndex = w.programIndex)
    ∧ (∀ w : WasherControl,
        (Washer_HandleButtonPress w Button.UP).1.programIndex =
          if w.state = IDLE ∧ w.programIndex < 29 then w.programIndex + 1
          else w.programIndex)
    ∧ (∀ w : WasherControl,
        (Washer_HandleButtonPress w Button.DOWN).1.programIndex =
          if w.state = IDLE ∧ 0 < w.programIndex then w.programIndex - 1
          else w.programIndex)
    ∧ (∀ (w : WasherControl) (b : Button), b ≠ Button.UP → b ≠ Button.DOWN →
        (Washer_HandleButtonPress w b).1.programIndex = w.programIndex) := by
  refine ⟨?_, update_washer_programIndex, ?_, ?_, ?_⟩
  · intro evs
    exact runEvents_programIndex evs (Washer_Init.1, 0) (by decide) (by decide)
  · intro w
    rw [hb_programIndex]
    simp
  · intro w
    rw [hb_programIndex]
    simp
  · intro w b hu hd
    cases b <;> simp_all [hb_programIndex]

/-- C2 witness: a Start press in the initial state leaves the index at 0. -/
theorem programIndex_bounds_check :
    (Washer_HandleButtonPress ⟨IDLE, 0, 0, 0, FORWARD⟩ Button.START).1.programIndex
      = (⟨IDLE, 0, 0, 0, FORWARD⟩ : WasherControl).programIndex :=
  programIndex_bounds.2.2.2.2 ⟨IDLE, 0, 0, 0, FORWARD⟩ Button.START
    (by decide) (by decide)

/-- C3: in `FILL_WATER`, the temperature-aware `Washer_Update` variant
commands the valves as a pure function of the sample `t`: `t < 25` gives
hot ON / cold OFF, `t > 35` gives hot OFF / cold ON, and the closed band
`25 ≤ t ≤ 35` (boundaries included) gives both valves ON. -/
theorem fillwater_valve_policy (w : WasherControl) (t : ℚ)
    (h : w.state = FILL_WATER) :
    (t < 25 → finalLevel (Washer_UpdateT w t).gpio Pin.waterHot = some true
      ∧ finalLevel (Washer_UpdateT w t).gpio Pin.waterCold = some false)
    ∧ (35 < t → finalLevel (Washer_UpdateT w t).gpio Pin.waterHot = some false
      ∧ finalLevel (Washer_UpdateT w t).gpio Pin.waterCold = some true)
    ∧ (25 ≤ t → t ≤ 35 →
        finalLevel (Washer_UpdateT w t).gpio Pin.waterHot = some true
      ∧ finalLevel (Washer_UpdateT w t).gpio Pin.waterCold = some true) := by
  rw [updateT_eq_of_fill w t h]
  refine ⟨fun h1 => ?_, fun h2 => ?_, fun h3 h4 => ?_⟩
  · rw [if_pos h1]
    simp [finalLevel]
  · rw [if_neg (by linarith : ¬ t < 25), if_pos h2]
    simp [finalLevel]
  · rw [if_neg (by linarith : ¬ t < 25), if_neg (by linarith : ¬ 35 < t)]
    simp [finalLevel]

/-- C3 witness: the four spec samples 24.9, 25.0, 35.0, 35.1. -/
theorem fillwater_valve_policy_check :
    (finalLevel (Washer_UpdateT ⟨FILL_WATER, 0, 0, 0, FORWARD⟩ (249/10)).gpio
        Pin.waterHot = some true
      ∧ finalLevel (Washer_UpdateT ⟨FILL_WATER, 0, 0, 0, FORWARD⟩ (249/10)).gpio
        Pin.waterCold = some false)
    ∧ (finalLevel (Washer_UpdateT ⟨FILL_WATER, 0, 0, 0, FORWARD⟩ 25).gpio
        Pin.waterHot = some true
      ∧ finalLevel (Washer_UpdateT ⟨FILL_WATER, 0, 0, 0, FORWARD⟩ 25).gpio
        Pin.waterCold = some true)
    ∧ (finalLevel (Washer_UpdateT ⟨FILL_WATER, 0, 0, 0, FORWARD⟩ 35).gpio
        Pin.waterHot = some true
      ∧ finalLevel (Washer_UpdateT ⟨FILL_WATER, 0, 0, 0, FORWARD⟩ 35).gpio
        Pin.waterCold = some true)
    ∧ (finalLevel (Washer_UpdateT ⟨FILL_WATER, 0, 0, 0, FORWARD⟩ (351/10)).gpio
        Pin.waterHot = some false
      ∧ finalLevel (Washer_UpdateT ⟨FILL_WATER, 0, 0, 0, FORWARD⟩ (351/10)).gpio
        Pin.waterCold = some true) :=
  ⟨(fillwater_valve_policy ⟨FILL_WATER, 0, 0, 0, FORWARD⟩ (249/10) rfl).1
      (by norm_num),
   (fillwater_valve_policy ⟨FILL_WATER, 0, 0, 0, FORWARD⟩ 25 rfl).2.2
      (by norm_num) (by norm_num),
   (fillwater_valve_policy ⟨FILL_WATER, 0, 0, 0, FORWARD⟩ 35 rfl).2.2
      (by norm_num) (by norm_num),
   (fillwater_valve_policy ⟨FILL_WATER, 0, 0, 0, FORWARD⟩ (351/10) rfl).2.1
      (by norm_num)⟩

/-- C4: a Stop event sets the state to `IDLE` from every (arbitrary raw)
state, and Stop is the only one of the four button events with no state
precondition: every other button is a no-op outside `IDLE`.
`Washer_HandleButtonPress` reads neither the clock nor the temperature, so
the result is independent of elapsed time and temperature. -/
theorem stop_override (w : WasherControl) (b : Button) :
    (Washer_HandleButtonPress w Button.STOP).1.state = IDLE
    ∧ (b ≠ Button.STOP → w.state ≠ IDLE →
        Washer_HandleButtonPress w b = (w, [])) := by
  constructor
  · simp [Washer_HandleButtonPress]
  · intro hb hs
    cases b <;> simp_all [Washer_HandleButtonPress]

/-- C4 witness: Stop from `WASH` yields `IDLE`; ProgramUp in `WASH` is a
no-op. -/
theorem stop_override_check :
    (Washer_HandleButtonPress ⟨WASH, 0, 0, 0, FORWARD⟩ Button.STOP).1.state = IDLE
    ∧ Washer_HandleButtonPress ⟨WASH, 0, 0, 0, FORWARD⟩ Button.UP
        = (⟨WASH, 0, 0, 0, FORWARD⟩, []) :=
  ⟨(stop_override ⟨WASH, 0, 0, 0, FORWARD⟩ Button.UP).1,
   (stop_override ⟨WASH, 0, 0, 0, FORWARD⟩ Button.UP).2 (by decide) (by decide)⟩

/-- C5: from `WASH`, one `Washer_Update` call transitions unconditionally to
`RINSE`, a second to `SPIN`, and a third commands motor forward ON and
reverse OFF and transitions to `IDLE` — for arbitrary tick values at each
call (the ticks `c1, c2, c3` are unconstrained, and this variant reads no
temperature). -/
theorem wash_rinse_spin_sequence (w : WasherControl) (lt c1 c2 c3 : Nat)
    (h : w.state = WASH) :
    (Washer_Update w lt c1).washer.state = RINSE
    ∧ (Washer_Update (Washer_Update w lt c1).washer
        (Washer_Update w lt c1).lastTime c2).washer.state = SPIN
    ∧ ((Washer_Update (Washer_Update (Washer_Update w lt c1).washer
        (Washer_Update w lt c1).lastTime c2).washer
        (Washer_Update (Washer_Update w lt c1).washer
          (Washer_Update w lt c1).lastTime c2).lastTime c3).washer.state = IDLE
      ∧ finalLevel (Washer_Update (Washer_Update (Washer_Update w lt c1).washer
          (Washer_Update w lt c1).lastTime c2).washer
          (Washer_Update (Washer_Update w lt c1).washer
            (Washer_Update w lt c1).lastTime c2).lastTime c3).gpio
          Pin.motorForward = some true
      ∧ finalLevel (Washer_Update (Washer_Update (Washer_Update w lt c1).washer
          (Washer_Update w lt c1).lastTime c2).washer
          (Washer_Update (Washer_Update w lt c1).washer
            (Washer_Update w lt c1).lastTime c2).lastTime c3).gpio
          Pin.motorReverse = some false) := by
  rw [update_eq_of_wash w lt c1 h]
  rw [update_eq_of_rinse _ lt c2 rfl]
  rw [update_eq_of_spin _ lt c3 rfl]
  refine ⟨rfl, rfl, rfl, ?_, ?_⟩ <;> simp [finalLevel]

/-- C5 witness: the three-step sequence from `WASH` at tick 0. -/
theorem wash_rinse_spin_sequence_check :
    (Washer_Update ⟨WASH, 0, 0, 0, FORWARD⟩ 0 0).washer.state = RINSE :=
  (wash_rinse_spin_sequence ⟨WASH, 0, 0, 0, FORWARD⟩ 0 0 0 0 rfl).1

/-- C6 counterexample: an update call in `WASH` at `currentTime = 5` with
`lastTime = 0` performs the WASH→RINSE transition but leaves `lastTime` at
0 (not reset to the current tick 5) and notifies the Status Sink with the
pre-transition state `WASH`, never with the new state `RINSE`. -/
theorem transition_bookkeeping_cex :
    (Washer_Update ⟨WASH, 0, 0, 0, FORWARD⟩ 0 5).washer.state = RINSE
    ∧ (Washer_Update ⟨WASH, 0, 0, 0, FORWARD⟩ 0 5).lastTime = 0
    ∧ (Washer_Update ⟨WASH, 0, 0, 0, FORWARD⟩ 0 5).lastTime ≠ 5
    ∧ DisplayCall.updateWasherState RINSE 0 ∉
        (Washer_Update ⟨WASH, 0, 0, 0, FORWARD⟩ 0 5).display := by decide

/-- C6 (amended): `Washer_Update` resets the static `lastTime` to the
current tick only on the FILL_WATER→WASH transition; every other call
leaves it unchanged.  The status notification of a call carries the
pre-transition state (and the `default:`→ERROR transition, like `IDLE`,
notifies nothing). -/
theorem transition_bookkeeping (w : WasherControl) (lt c : Nat) :
    (Washer_Update w lt c).lastTime =
      (if w.state = FILL_WATER ∧ 10000 ≤ u32sub c lt then c else lt)
    ∧ (Washer_Update w lt c).display =
      (if w.state = FILL_WATER ∨ w.state = WASH ∨ w.state = RINSE
          ∨ w.state = SPIN ∨ w.state = ERROR
       then [DisplayCall.updateWasherState w.state w.programIndex] else []) := by
  constructor
  · unfold Washer_Update
    split_ifs <;> simp_all [IDLE, FILL_WATER, WASH, RINSE, SPIN, ERROR]
  · unfold Washer_Update
    split_ifs <;> simp_all [IDLE, FILL_WATER, WASH, RINSE, SPIN, ERROR]

/-- C7 counterexample: a `Washer_Update` call observing the out-of-range
raw state 6 sets the state to `ERROR` but issues no output command at all
during that call — no pin is commanded off (a previously-ON valve would
stay ON after this single call). -/
theorem invalid_state_cex :
    (Washer_Update ⟨6, 0, 0, 0, FORWARD⟩ 0 0).washer.state = ERROR
    ∧ (Washer_Update ⟨6, 0, 0, 0, FORWARD⟩ 0 0).gpio = []
    ∧ finalLevel (Washer_Update ⟨6, 0, 0, 0, FORWARD⟩ 0 0).gpio
        Pin.waterHot ≠ some false
    ∧ finalLevel (Washer_Update ⟨6, 0, 0, 0, FORWARD⟩ 0 0).gpio
        Pin.waterCold ≠ some false
    ∧ finalLevel (Washer_Update ⟨6, 0, 0, 0, FORWARD⟩ 0 0).gpio
        Pin.motorForward ≠ some false
    ∧ finalLevel (Washer_Update ⟨6, 0, 0, 0, FORWARD⟩ 0 0).gpio
        Pin.motorReverse ≠ some false := by decide

/-- C7 (amended): a `Washer_Update` call observing a state value outside
the recognized enumeration sets the state to `ERROR` while issuing no
output command in that same call; subsequent calls in `ERROR` keep the
state `ERROR` and command all four outputs off; a Stop button event
recovers `ERROR` to `IDLE`. -/
theorem invalid_state_error (w : WasherControl) (lt c : Nat) :
    (¬ recognizedState w.state →
        (Washer_Update w lt c).washer.state = ERROR
        ∧ (Washer_Update w lt c).gpio = [])
    ∧ (w.state = ERROR →
        (Washer_Update w lt c).washer.state = ERROR
        ∧ finalLevel (Washer_Update w lt c).gpio Pin.motorForward = some false
        ∧ finalLevel (Washer_Update w lt c).gpio Pin.motorReverse = some false
        ∧ finalLevel (Washer_Update w lt c).gpio Pin.waterHot = some false
        ∧ finalLevel (Washer_Update w lt c).gpio Pin.waterCold = some false)
    ∧ (w.state = ERROR →
        (Washer_HandleButtonPress w Button.STOP).1.state = IDLE) := by
  refine ⟨fun hr => ?_, fun he => ?_, fun he => ?_⟩
  · rw [update_eq_of_unknown w lt c hr]
    exact ⟨rfl, rfl⟩
  · rw [update_eq_of_error w lt c he]
    refine ⟨he, ?_, ?_, ?_, ?_⟩ <;> simp [finalLevel]
  · simp [Washer_HandleButtonPress]

/-- C7 witness: raw state 6 routes to `ERROR`; an update in `ERROR` safes
the motor forward output; Stop recovers `ERROR` to `IDLE`. -/
theorem invalid_state_error_check :
    (Washer_Update ⟨6, 0, 0, 0, FORWARD⟩ 0 0).washer.state = ERROR
    ∧ finalLevel (Washer_Update ⟨ERROR, 0, 0, 0, FORWARD⟩ 0 0).gpio
        Pin.motorForward = some false
    ∧ (Washer_HandleButtonPress ⟨ERROR, 0, 0, 0, FORWARD⟩ Button.STOP).1.state
        = IDLE :=
  ⟨((invalid_state_error ⟨6, 0, 0, 0, FORWARD⟩ 0 0).1 (by decide)).1,
   ((invalid_state_error ⟨ERROR, 0, 0, 0, FORWARD⟩ 0 0).2.1 rfl).2.1,
   (invalid_state_error ⟨ERROR, 0, 0, 0, FORWARD⟩ 0 0).2.2 rfl⟩

/-- C8 counterexample: with time not advancing (tick 0 at both calls),
starting from `WASH` the first `Washer_Update` call changes the state to
`RINSE` and the second call changes it again to `SPIN`: the state after two
calls at the same tick differs from the state after one call, because the
WASH/RINSE/SPIN transitions are not elapsed-time-gated. -/
theorem same_tick_cex :
    (Washer_Update ⟨WASH, 0, 0, 0, FORWARD⟩ 0 0).washer.state = RINSE
    ∧ (Washer_Update (Washer_Update ⟨WASH, 0, 0, 0, FORWARD⟩ 0 0).washer
        (Washer_Update ⟨WASH, 0, 0, 0, FORWARD⟩ 0 0).lastTime 0).washer.state
        = SPIN
    ∧ SPIN ≠ RINSE := by decide

/-- C8 (amended): repeated `Washer_Update` calls at an unchanged tick leave
the state unchanged only for the states with no unconditional transition:
`IDLE` and `ERROR` (the whole structure and `lastTime` are unchanged), and
`FILL_WATER` while the 10000 ms gate is not yet met; `WASH`, `RINSE` and
`SPIN` advance on every call regardless of the tick. -/
theorem same_tick_stability (w : WasherControl) (lt c : Nat) :
    ((w.state = IDLE ∨ w.state = ERROR) →
        (Washer_Update w lt c).washer = w
        ∧ (Washer_Update w lt c).lastTime = lt)
    ∧ (w.state = FILL_WATER → u32sub c lt < 10000 →
        (Washer_Update w lt c).washer = w
        ∧ (Washer_Update w lt c).lastTime = lt) := by
  constructor
  · rintro (h | h)
    · rw [update_eq_of_idle w lt c h]
      exact ⟨rfl, rfl⟩
    · rw [update_eq_of_error w lt c h]
      exact ⟨rfl, rfl⟩
  · intro h hg
    rw [update_eq_of_fill w lt c h, if_neg (by omega)]
    exact ⟨rfl, rfl⟩

/-- C8 witness: at tick 0, an update in `IDLE` and a gated update in
`FILL_WATER` both leave the structure unchanged. -/
theorem same_tick_stability_check :
    (Washer_Update ⟨IDLE, 0, 0, 0, FORWARD⟩ 0 0).washer
      = (⟨IDLE, 0, 0, 0, FORWARD⟩ : WasherControl)
    ∧ (Washer_Update ⟨FILL_WATER, 0, 0, 0, FORWARD⟩ 0 0).washer
      = (⟨FILL_WATER, 0, 0, 0, FORWARD⟩ : WasherControl) :=
  ⟨((same_tick_stability ⟨IDLE, 0, 0, 0, FORWARD⟩ 0 0).1 (Or.inl rfl)).1,
   ((same_tick_stability ⟨FILL_WATER, 0, 0, 0, FORWARD⟩ 0 0).2 rfl
      (by decide)).1⟩

/-- C9 counterexample: no code sets `direction` on `SPIN` entry — a
structure in `RINSE` with `direction = REVERSE` transitions to `SPIN` with
`direction` still `REVERSE`, and an update in `SPIN` also leaves it
`REVERSE`; so "set to Forward again on entry to the Spin phase" does not
hold as a mutation (only `Washer_Init` writes the field). -/
theorem direction_cex :
    (Washer_Update ⟨RINSE, 0, 0, 0, REVERSE⟩ 0 0).washer.state = SPIN
    ∧ (Washer_Update ⟨RINSE, 0, 0, 0, REVERSE⟩ 0 0).washer.direction = REVERSE
    ∧ (Washer_Update ⟨SPIN, 0, 0, 0, REVERSE⟩ 0 0).washer.direction = REVERSE
    ∧ REVERSE ≠ FORWARD := by decide

/-- C9 (amended): `Washer_Init` sets `direction` to `FORWARD`, and neither
`Washer_Update` (in any state, `SPIN` included) nor
`Washer_HandleButtonPress` (for any button) ever mutates `direction`; hence
in every run from `Washer_Init` the field stays `FORWARD`, in particular
whenever `SPIN` is entered. -/
theorem direction_frame :
    Washer_Init.1.direction = FORWARD
    ∧ (∀ (w : WasherControl) (lt c : Nat),
        (Washer_Update w lt c).washer.direction = w.direction)
    ∧ (∀ (w : WasherControl) (b : Button),
        (Washer_HandleButtonPress w b).1.direction = w.direction)
    ∧ (∀ evs : List Event,
        (runEvents (Washer_Init.1, 0) evs).1.direction = FORWARD) :=
  ⟨rfl, update_washer_direction, hb_direction,
   fun evs => by rw [runEvents_direction]; rfl⟩

/-- C10: a ProgramUp event in `IDLE` with `programIndex = 29` and a
ProgramDown event in `IDLE` with `programIndex = 0` leave every field of the
structure unchanged and issue no `Display_ShowSelectedProgram` call (the
`src/src/washer.c` variant issues no display call at all; the
`src/unnamed/part_000` variant issues only its unconditional trailing
`Display_UpdateTime`). -/
theorem clamp_no_effect (w : WasherControl) (hs : w.state = IDLE) :
    (w.programIndex = 29 →
        Washer_HandleButtonPress w Button.UP = (w, [])
        ∧ (Washer_HandleButtonPressT w Button.UP).1 = w
        ∧ ∀ q, DisplayCall.showSelectedProgram q ∉
            (Washer_HandleButtonPressT w Button.UP).2)
    ∧ (w.programIndex = 0 →
        Washer_HandleButtonPress w Button.DOWN = (w, [])
        ∧ (Washer_HandleButtonPressT w Button.DOWN).1 = w
        ∧ ∀ q, DisplayCall.showSelectedProgram q ∉
            (Washer_HandleButtonPressT w Button.DOWN).2) := by
  constructor
  · intro h29
    unfold Washer_HandleButtonPress Washer_HandleButtonPressT
    split_ifs <;> simp_all
  · intro h0
    unfold Washer_HandleButtonPress Washer_HandleButtonPressT
    split_ifs <;> simp_all

/-- C10 witness: the two clamp cases at the concrete bounds. -/
theorem clamp_no_effect_check :
    Washer_HandleButtonPress ⟨IDLE, 29, 0, 0, FORWARD⟩ Button.UP
      = (⟨IDLE, 29, 0, 0, FORWARD⟩, [])
    ∧ Washer_HandleButtonPress ⟨IDLE, 0, 0, 0, FORWARD⟩ Button.DOWN
      = (⟨IDLE, 0, 0, 0, FORWARD⟩, []) :=
  ⟨((clamp_no_effect ⟨IDLE, 29, 0, 0, FORWARD⟩ rfl).1 rfl).1,
   ((clamp_no_effect ⟨IDLE, 0, 0, 0, FORWARD⟩ rfl).2 rfl).1⟩
